import Mathlib

/-!
Verification of the gesture-to-action dispatch in `src/app.py`
(HandGesture-to-Control-keys).

The program reads webcam frames, detects hands, and maps 5-element
finger-state vectors to actions (volume up/down, screenshot, space
key press), each gated by a cooldown timer.  We embed the mutable
global state (`current_volume`, the three `last_*_time_*` timers),
the per-hand dispatch logic of `generate_frames` (lines 91-139), and
the frame loop itself (lines 70-149), with times and volumes as
rationals and the finger vectors as the lists of 0/1 integers that
`detector.fingersUp` returns.
-/

namespace HandGesture

/-- The four actions the dispatcher can fire (volume set, screenshot write,
space key press are the corresponding sink calls in the source). -/
inductive Action where
  | VolumeUp
  | VolumeDown
  | Screenshot
  | SpacePress
deriving DecidableEq, Repr

/-- One detected hand as the loop body sees it: `hand['type']` (a string,
'Left' or 'Right' from the detector) and `detector.fingersUp(hand)`,
a Python list of 0/1 integers. -/
structure Hand where
  type : String
  fingers : List Nat
deriving DecidableEq, Repr

/-- The mutable global state of `app.py`: the cached volume scalar
(line 28) and the three cooldown timers (lines 39, 42, 45). -/
structure GestureState where
  current_volume : ℚ
  last_screenshot_time_right : ℚ
  last_space_time_left : ℚ
  last_volume_change_time_right : ℚ
deriving DecidableEq, Repr

/-- `screenshot_cooldown_right = 5` seconds (line 40). -/
def screenshot_cooldown_right : ℚ := 5

/-- `space_cooldown_left = 1` second (line 43). -/
def space_cooldown_left : ℚ := 1

/-- `volume_cooldown_right = 0.2` seconds (line 46). -/
def volume_cooldown_right : ℚ := 1/5

/-- The body of the `for hand in hands` loop (lines 82-139): given the
current global state, one hand, and the value `current_time` read by
`time.time()`, return the updated state and the action fired, if any.
Pattern comparison is the exact list equality of the Python `==`
on `fingers`; each branch fires only when `current_time - last > cooldown`,
and a fire updates the cached volume (clamped) and that branch's timer. -/
def dispatchHand (s : GestureState) (hand : Hand) (current_time : ℚ) :
    GestureState × Option Action :=
  if hand.type = "Right" then
    if hand.fingers = [1, 0, 0, 0, 0] then
      if current_time - s.last_volume_change_time_right > volume_cooldown_right then
        ({ s with current_volume := min (s.current_volume + 1/100) 1,
                  last_volume_change_time_right := current_time },
         some Action.VolumeUp)
      else (s, none)
    else if hand.fingers = [0, 0, 0, 0, 1] then
      if current_time - s.last_volume_change_time_right > volume_cooldown_right then
        ({ s with current_volume := max (s.current_volume - 1/100) 0,
                  last_volume_change_time_right := current_time },
         some Action.VolumeDown)
      else (s, none)
    else if hand.fingers = [0, 1, 1, 0, 0] then
      if current_time - s.last_screenshot_time_right > screenshot_cooldown_right then
        ({ s with last_screenshot_time_right := current_time },
         some Action.Screenshot)
      else (s, none)
    else (s, none)
  else if hand.type = "Left" then
    if hand.fingers = [1, 1, 1, 1, 1] then
      if current_time - s.last_space_time_left > space_cooldown_left then
        ({ s with last_space_time_left := current_time },
         some Action.SpacePress)
      else (s, none)
    else (s, none)
  else (s, none)

/-- The whole `for hand in hands` loop over one frame's detections:
each hand is dispatched in order against the state left by the previous
one, at its own `time.time()` reading; the fired actions are collected
in order. -/
def dispatchHands (s : GestureState) :
    List (Hand × ℚ) → GestureState × List Action
  | [] => (s, [])
  | (h, t) :: rest =>
    let p := dispatchHand s h t
    let q := dispatchHands p.1 rest
    (q.1, p.2.toList ++ q.2)

/-- The right hand with only the thumb up: pattern `[1,0,0,0,0]` (line 98). -/
def rightThumb : Hand := ⟨"Right", [1, 0, 0, 0, 0]⟩

/-- The right hand with only the little finger up: pattern `[0,0,0,0,1]`
(line 108). -/
def rightPinky : Hand := ⟨"Right", [0, 0, 0, 0, 1]⟩

/-- The right hand in the victory pose: pattern `[0,1,1,0,0]` (line 118). -/
def rightVictory : Hand := ⟨"Right", [0, 1, 1, 0, 0]⟩

/-- The open left palm: pattern `[1,1,1,1,1]` (line 133). -/
def leftPalm : Hand := ⟨"Left", [1, 1, 1, 1, 1]⟩

/-! ## The frame loop with fallible sinks

The sink calls (`SetMasterVolumeLevelScalar`, `take_screenshot` via
`cv2.imwrite`, `pyautogui.press`) can raise.  `app.py` wraps none of them
in try/except, so an exception propagates out of the generator.  We model
this with an environment `fail : Action → Bool` saying which sink calls
raise, and an `Except` result carrying the state at the point the
exception escapes.  In the source the volume cache is updated *before*
the volume sink call (line 101 before 102) while the timer update comes
after (line 103), so a failing volume sink leaves the cache updated but
the timer untouched; for screenshot and space the sink call precedes the
timer update likewise. -/

/-- Per-hand dispatch with fallible sinks: mirrors `dispatchHand`, but a
sink call raising (per `fail`) yields `Except.error` carrying the failed
action and the state at that point (partial updates applied, timer not
yet written, as in the source's statement order). -/
def dispatchHandE (fail : Action → Bool) (s : GestureState) (hand : Hand)
    (current_time : ℚ) :
    Except (Action × GestureState) (GestureState × Option Action) :=
  if hand.type = "Right" then
    if hand.fingers = [1, 0, 0, 0, 0] then
      if current_time - s.last_volume_change_time_right > volume_cooldown_right then
        let s₁ := { s with current_volume := min (s.current_volume + 1/100) 1 }
        if fail Action.VolumeUp then Except.error (Action.VolumeUp, s₁)
        else Except.ok ({ s₁ with last_volume_change_time_right := current_time },
                        some Action.VolumeUp)
      else Except.ok (s, none)
    else if hand.fingers = [0, 0, 0, 0, 1] then
      if current_time - s.last_volume_change_time_right > volume_cooldown_right then
        let s₁ := { s with current_volume := max (s.current_volume - 1/100) 0 }
        if fail Action.VolumeDown then Except.error (Action.VolumeDown, s₁)
        else Except.ok ({ s₁ with last_volume_change_time_right := current_time },
                        some Action.VolumeDown)
      else Except.ok (s, none)
    else if hand.fingers = [0, 1, 1, 0, 0] then
      if current_time - s.last_screenshot_time_right > screenshot_cooldown_right then
        if fail Action.Screenshot then Except.error (Action.Screenshot, s)
        else Except.ok ({ s with last_screenshot_time_right := current_time },
                        some Action.Screenshot)
      else Except.ok (s, none)
    else Except.ok (s, none)
  else if hand.type = "Left" then
    if hand.fingers = [1, 1, 1, 1, 1] then
      if current_time - s.last_space_time_left > space_cooldown_left then
        if fail Action.SpacePress then Except.error (Action.SpacePress, s)
        else Except.ok ({ s with last_space_time_left := current_time },
                        some Action.SpacePress)
      else Except.ok (s, none)
    else Except.ok (s, none)
  else Except.ok (s, none)

/-- The `for hand in hands` loop with fallible sinks: an exception from
any hand's dispatch aborts the loop, leaving later hands unprocessed. -/
def dispatchHandsE (fail : Action → Bool) (s : GestureState) :
    List (Hand × ℚ) → Except (Action × GestureState) (GestureState × List Action)
  | [] => Except.ok (s, [])
  | (h, t) :: rest =>
    match dispatchHandE fail s h t with
    | Except.error e => Except.error e
    | Except.ok (s', a) =>
      match dispatchHandsE fail s' rest with
      | Except.error e => Except.error e
      | Except.ok (s'', as) => Except.ok (s'', a.toList ++ as)

/-- One iteration's input to the `while True` loop: either `cap.read()`
failed (`success` false), or it succeeded and the detector returned the
given hands, each paired with the `time.time()` value its dispatch reads. -/
inductive FrameInput where
  | readFail
  | readOk (hands : List (Hand × ℚ))
deriving DecidableEq, Repr

/-- Observable events of one streaming session. -/
inductive Event where
  | fired (a : Action)
  | yielded
  | aborted (a : Action)
  | released
deriving DecidableEq, Repr

/-- The `while True` loop of `generate_frames` (lines 70-149) over a
finite prefix of camera reads.  A failed read breaks the loop and
`cap.release()` runs (one `released` event).  A successful read
dispatches every hand, then yields the encoded frame (`yielded`);
an uncaught sink exception ends the generator at once: no yield for
that frame, no later frames, and no `cap.release()` (line 149 is
skipped), recorded as `aborted`.  An exhausted input list means the
session is still running (the real loop is infinite). -/
def generate_frames_loop (fail : Action → Bool) (s : GestureState) :
    List FrameInput → GestureState × List Event
  | [] => (s, [])
  | FrameInput.readFail :: _ => (s, [Event.released])
  | FrameInput.readOk hands :: rest =>
    match dispatchHandsE fail s hands with
    | Except.error (a, s') => (s', [Event.aborted a])
    | Except.ok (s', acts) =>
      let q := generate_frames_loop fail s' rest
      (q.1, acts.map Event.fired ++ Event.yielded :: q.2)

/-- The environment in which no sink call raises: normal operation. -/
def noFail : Action → Bool := fun _ => false

/-- The cooldown the code applies to each action (lines 40, 43, 46):
note that VolumeUp and VolumeDown both use `volume_cooldown_right`. -/
def cooldownOf : Action → ℚ
  | Action.VolumeUp => volume_cooldown_right
  | Action.VolumeDown => volume_cooldown_right
  | Action.Screenshot => screenshot_cooldown_right
  | Action.SpacePress => space_cooldown_left

/-- The timer the code reads to gate each action: VolumeUp and VolumeDown
share `last_volume_change_time_right` (lines 99, 109); Screenshot and
SpacePress have their own timers (lines 119, 134). -/
def lastFiredOf (s : GestureState) : Action → ℚ
  | Action.VolumeUp => s.last_volume_change_time_right
  | Action.VolumeDown => s.last_volume_change_time_right
  | Action.Screenshot => s.last_screenshot_time_right
  | Action.SpacePress => s.last_space_time_left

/-- The hand that triggers each action, per the pattern table. -/
def triggerOf : Action → Hand
  | Action.VolumeUp => rightThumb
  | Action.VolumeDown => rightPinky
  | Action.Screenshot => rightVictory
  | Action.SpacePress => leftPalm

/-- Repeated VolumeUp firing: each attempt is made 1 second after the
volume timer, so every attempt is past the 0.2s cooldown and fires. -/
def fireVolUpN : ℕ → GestureState → GestureState
  | 0, s => s
  | n + 1, s =>
    fireVolUpN n (dispatchHand s rightThumb (s.last_volume_change_time_right + 1)).1

/-- Repeated VolumeDown firing, 1 second apart, so every attempt fires. -/
def fireVolDownN : ℕ → GestureState → GestureState
  | 0, s => s
  | n + 1, s =>
    fireVolDownN n (dispatchHand s rightPinky (s.last_volume_change_time_right + 1)).1

/-! ## Claim C10: unknown handedness is a silent no-op -/

/-- Claim C10 (confirmed): for a detected hand whose handedness label is
neither 'Right' nor 'Left', dispatch is a total silent no-op for every
finger-state vector: no action fires, no timer or volume changes, and
no error is raised. -/
theorem unknown_handedness_no_op (s : GestureState) (h : String) (f : List Nat)
    (t : ℚ) (hr : h ≠ "Right") (hl : h ≠ "Left") :
    dispatchHand s ⟨h, f⟩ t = (s, none) := by
  simp [dispatchHand, hr, hl]

/-- Witness for C10 at handedness 'Hand' with the VolumeUp pattern. -/
theorem unknown_handedness_no_op_witness :
    ("Hand" : String) ≠ "Right" ∧ ("Hand" : String) ≠ "Left" ∧
    dispatchHand ⟨1/2, 0, 0, 0⟩ ⟨"Hand", [1, 0, 0, 0, 0]⟩ 100
      = (⟨1/2, 0, 0, 0⟩, none) :=
  ⟨by simp, by simp,
   unknown_handedness_no_op ⟨1/2, 0, 0, 0⟩ "Hand" [1, 0, 0, 0, 0] 100
     (by simp) (by simp)⟩

/-! ## Claim C8: wrong-length finger vectors

The claim says the dispatcher treats a finger-state vector whose length
is not 5 as a contract violation (reject or assert).  The code does
nothing of the sort: the Python `==` against the length-5 literal
patterns is simply false, so the dispatcher silently proceeds exactly as
for a valid non-matching vector.  The claim is corrected accordingly. -/

/-- Counterexample to C8 as stated: on the length-4 vector `[1,0,0,0]`
the dispatcher neither rejects nor asserts; it silently returns the
ordinary "no action" result with the state unchanged, indistinguishable
from a valid-length non-matching vector such as `[0,0,0,0,0]`. -/
theorem short_vector_counterexample :
    dispatchHand ⟨1/2, 0, 0, 0⟩ ⟨"Right", [1, 0, 0, 0]⟩ 100
        = (⟨1/2, 0, 0, 0⟩, none) ∧
    dispatchHand ⟨1/2, 0, 0, 0⟩ ⟨"Right", [1, 0, 0, 0]⟩ 100
        = dispatchHand ⟨1/2, 0, 0, 0⟩ ⟨"Right", [0, 0, 0, 0, 0]⟩ 100 := by
  constructor <;> norm_num [dispatchHand]

/-- Claim C8 (corrected): a finger-state vector whose length is not 5
matches no pattern, and the dispatcher silently proceeds as a no-op:
no action, no state change, no error. -/
theorem short_vector_silent_no_op (s : GestureState) (h : String) (f : List Nat)
    (t : ℚ) (hlen : f.length ≠ 5) :
    dispatchHand s ⟨h, f⟩ t = (s, none) := by
  have h1 : f ≠ [1, 0, 0, 0, 0] := by intro e; rw [e] at hlen; exact hlen rfl
  have h2 : f ≠ [0, 0, 0, 0, 1] := by intro e; rw [e] at hlen; exact hlen rfl
  have h3 : f ≠ [0, 1, 1, 0, 0] := by intro e; rw [e] at hlen; exact hlen rfl
  have h4 : f ≠ [1, 1, 1, 1, 1] := by intro e; rw [e] at hlen; exact hlen rfl
  simp only [dispatchHand, h1, h2, h3, h4, if_false]
  split_ifs <;> rfl

/-- Witness for the corrected C8 at the length-4 vector `[1,0,0,0]`. -/
theorem short_vector_silent_no_op_witness :
    ([1, 0, 0, 0] : List Nat).length ≠ 5 ∧
    dispatchHand ⟨1/2, 0, 0, 0⟩ ⟨"Right", [1, 0, 0, 0]⟩ 100
      = (⟨1/2, 0, 0, 0⟩, none) :=
  ⟨by decide,
   short_vector_silent_no_op ⟨1/2, 0, 0, 0⟩ "Right" [1, 0, 0, 0] 100 (by decide)⟩

/-! ## Claim C3: dispatch is exact pattern-table lookup -/

/-- Claim C3 (confirmed): dispatch matches a hand's finger vector by exact
equality against the literal patterns for its handedness.  Every Right
vector other than `[1,0,0,0,0]`, `[0,0,0,0,1]`, `[0,1,1,0,0]` and every
Left vector other than `[1,1,1,1,1]` yields no action and no side effect,
and each pattern can only ever fire its own action (VolumeUp, VolumeDown,
Screenshot, SpacePress respectively). -/
theorem exact_pattern_dispatch (s : GestureState) (t : ℚ) (f : List Nat) :
    (f ≠ [1, 0, 0, 0, 0] → f ≠ [0, 0, 0, 0, 1] → f ≠ [0, 1, 1, 0, 0] →
      dispatchHand s ⟨"Right", f⟩ t = (s, none)) ∧
    (f ≠ [1, 1, 1, 1, 1] → dispatchHand s ⟨"Left", f⟩ t = (s, none)) ∧
    ((dispatchHand s rightThumb t).2 = none ∨
      (dispatchHand s rightThumb t).2 = some Action.VolumeUp) ∧
    ((dispatchHand s rightPinky t).2 = none ∨
      (dispatchHand s rightPinky t).2 = some Action.VolumeDown) ∧
    ((dispatchHand s rightVictory t).2 = none ∨
      (dispatchHand s rightVictory t).2 = some Action.Screenshot) ∧
    ((dispatchHand s leftPalm t).2 = none ∨
      (dispatchHand s leftPalm t).2 = some Action.SpacePress) := by
  refine ⟨fun h1 h2 h3 => ?_, fun h4 => ?_, ?_, ?_, ?_, ?_⟩
  · simp [dispatchHand, h1, h2, h3]
  · simp [dispatchHand, h4]
  all_goals
    simp only [dispatchHand, rightThumb, rightPinky, rightVictory, leftPalm]
    split_ifs <;> simp_all

/-- Witness for C3 at the all-down vector `[0,0,0,0,0]`. -/
theorem exact_pattern_dispatch_witness :
    (([0, 0, 0, 0, 0] : List Nat) ≠ [1, 0, 0, 0, 0] →
      ([0, 0, 0, 0, 0] : List Nat) ≠ [0, 0, 0, 0, 1] →
      ([0, 0, 0, 0, 0] : List Nat) ≠ [0, 1, 1, 0, 0] →
      dispatchHand ⟨1/2, 0, 0, 0⟩ ⟨"Right", [0, 0, 0, 0, 0]⟩ 100
        = (⟨1/2, 0, 0, 0⟩, none)) ∧
    (([0, 0, 0, 0, 0] : List Nat) ≠ [1, 1, 1, 1, 1] →
      dispatchHand ⟨1/2, 0, 0, 0⟩ ⟨"Left", [0, 0, 0, 0, 0]⟩ 100
        = (⟨1/2, 0, 0, 0⟩, none)) ∧
    ((dispatchHand ⟨1/2, 0, 0, 0⟩ rightThumb 100).2 = none ∨
      (dispatchHand ⟨1/2, 0, 0, 0⟩ rightThumb 100).2 = some Action.VolumeUp) ∧
    ((dispatchHand ⟨1/2, 0, 0, 0⟩ rightPinky 100).2 = none ∨
      (dispatchHand ⟨1/2, 0, 0, 0⟩ rightPinky 100).2 = some Action.VolumeDown) ∧
    ((dispatchHand ⟨1/2, 0, 0, 0⟩ rightVictory 100).2 = none ∨
      (dispatchHand ⟨1/2, 0, 0, 0⟩ rightVictory 100).2 = some Action.Screenshot) ∧
    ((dispatchHand ⟨1/2, 0, 0, 0⟩ leftPalm 100).2 = none ∨
      (dispatchHand ⟨1/2, 0, 0, 0⟩ leftPalm 100).2 = some Action.SpacePress) :=
  exact_pattern_dispatch ⟨1/2, 0, 0, 0⟩ 100 [0, 0, 0, 0, 0]

/-! ## Claim C1: cooldown state is kept per timer, not per action

The claim says each of the four actions is gated by its own timer, so a
VolumeUp fire cannot suppress a later VolumeDown whose own cooldown has
elapsed.  The code keeps only three timers: VolumeUp and VolumeDown share
`last_volume_change_time_right`, so a VolumeUp fire at `t` does suppress
a VolumeDown attempt at `t'` whenever `t' - t ≤ 0.2`, even if VolumeDown
never fired before.  The claim is corrected accordingly. -/

/-- Counterexample to C1 as stated: from the initial state (all timers 0),
VolumeUp fires at `t = 100`; a VolumeDown attempt at `t' = 100.1` is then
suppressed even though VolumeDown itself never fired (its "own last fire"
is 0 and `100.1 - 0 > 0.2`). -/
theorem shared_volume_timer_counterexample :
    (dispatchHand ⟨1/2, 0, 0, 0⟩ rightThumb 100).2 = some Action.VolumeUp ∧
    (1001/10 : ℚ) - (0 : ℚ) > volume_cooldown_right ∧
    dispatchHand (dispatchHand ⟨1/2, 0, 0, 0⟩ rightThumb 100).1 rightPinky (1001/10)
      = ((dispatchHand ⟨1/2, 0, 0, 0⟩ rightThumb 100).1, none) := by
  norm_num [dispatchHand, rightThumb, rightPinky, volume_cooldown_right]

/-- Claim C1 (corrected): cooldown state is kept per timer, with VolumeUp
and VolumeDown sharing `last_volume_change_time_right` while Screenshot
keeps its own timer.  A successful VolumeUp fire at `t` updates only the
shared volume timer (the screenshot and space timers are untouched);
afterwards a VolumeDown attempt at `t'` fires exactly when `t' - t`
exceeds the 0.2s cooldown, regardless of when VolumeDown last fired,
while a Screenshot attempt is still gated by its own untouched timer. -/
theorem volume_actions_share_timer (s : GestureState) (t t' : ℚ)
    (hfire : t - s.last_volume_change_time_right > volume_cooldown_right) :
    (dispatchHand s rightThumb t).1.last_screenshot_time_right
        = s.last_screenshot_time_right ∧
    (dispatchHand s rightThumb t).1.last_space_time_left = s.last_space_time_left ∧
    (dispatchHand s rightThumb t).1.last_volume_change_time_right = t ∧
    ((dispatchHand (dispatchHand s rightThumb t).1 rightPinky t').2
        = some Action.VolumeDown ↔ t' - t > volume_cooldown_right) ∧
    ((dispatchHand (dispatchHand s rightThumb t).1 rightVictory t').2
        = some Action.Screenshot
      ↔ t' - s.last_screenshot_time_right > screenshot_cooldown_right) := by
  simp only [dispatchHand, rightThumb, rightPinky, rightVictory, if_pos hfire]
  norm_num
  constructor
  · split_ifs with h
    · simp [h]
    · simp [h]
  · split_ifs with h
    · simp [h]
    · simp [h]

/-- Witness for the corrected C1: VolumeUp fires at `t = 1` from the
initial state; a VolumeDown attempt at `t' = 2` is gated by `2 - 1`
against the shared timer, a Screenshot attempt by its own timer. -/
theorem volume_actions_share_timer_witness :
    ((1 : ℚ) - (0 : ℚ) > volume_cooldown_right) ∧
    ((dispatchHand ⟨1/2, 0, 0, 0⟩ rightThumb 1).1.last_screenshot_time_right
        = (0 : ℚ) ∧
     (dispatchHand ⟨1/2, 0, 0, 0⟩ rightThumb 1).1.last_space_time_left = (0 : ℚ) ∧
     (dispatchHand ⟨1/2, 0, 0, 0⟩ rightThumb 1).1.last_volume_change_time_right
        = (1 : ℚ) ∧
     ((dispatchHand (dispatchHand ⟨1/2, 0, 0, 0⟩ rightThumb 1).1 rightPinky 2).2
        = some Action.VolumeDown ↔ (2 : ℚ) - 1 > volume_cooldown_right) ∧
     ((dispatchHand (dispatchHand ⟨1/2, 0, 0, 0⟩ rightThumb 1).1 rightVictory 2).2
        = some Action.Screenshot
      ↔ (2 : ℚ) - (0 : ℚ) > screenshot_cooldown_right)) :=
  ⟨by norm_num [volume_cooldown_right],
   volume_actions_share_timer ⟨1/2, 0, 0, 0⟩ 1 2
     (by norm_num [volume_cooldown_right])⟩

/-! ## Claim C2: cooldown gating is exactly `now - lastFired ≤ cooldown` -/

/-- Claim C2 (confirmed): for every action with cooldown `c`, a matching
dispatch at time `now` is suppressed — no sink call, no state change —
exactly when `now - lastFired ≤ c` (where `lastFired` is the timer the
code keeps for that action), and fires otherwise.  Concretely, after a
`Right [1,0,0,0,0]` fire at `now`, a second identical detection at
`now + 0.1` is suppressed while one at `now + 0.25` fires. -/
theorem cooldown_gating (s : GestureState) (now : ℚ) :
    (dispatchHand s (triggerOf Action.VolumeUp) now = (s, none)
        ↔ now - lastFiredOf s Action.VolumeUp ≤ cooldownOf Action.VolumeUp) ∧
    (dispatchHand s (triggerOf Action.VolumeDown) now = (s, none)
        ↔ now - lastFiredOf s Action.VolumeDown ≤ cooldownOf Action.VolumeDown) ∧
    (dispatchHand s (triggerOf Action.Screenshot) now = (s, none)
        ↔ now - lastFiredOf s Action.Screenshot ≤ cooldownOf Action.Screenshot) ∧
    (dispatchHand s (triggerOf Action.SpacePress) now = (s, none)
        ↔ now - lastFiredOf s Action.SpacePress ≤ cooldownOf Action.SpacePress) ∧
    ((dispatchHand s (triggerOf Action.VolumeUp) now).2 = some Action.VolumeUp
        ↔ now - lastFiredOf s Action.VolumeUp > cooldownOf Action.VolumeUp) ∧
    ((dispatchHand s (triggerOf Action.VolumeDown) now).2 = some Action.VolumeDown
        ↔ now - lastFiredOf s Action.VolumeDown > cooldownOf Action.VolumeDown) ∧
    ((dispatchHand s (triggerOf Action.Screenshot) now).2 = some Action.Screenshot
        ↔ now - lastFiredOf s Action.Screenshot > cooldownOf Action.Screenshot) ∧
    ((dispatchHand s (triggerOf Action.SpacePress) now).2 = some Action.SpacePress
        ↔ now - lastFiredOf s Action.SpacePress > cooldownOf Action.SpacePress) ∧
    ((dispatchHand s rightThumb now).2 = some Action.VolumeUp →
      dispatchHand (dispatchHand s rightThumb now).1 rightThumb (now + 1/10)
          = ((dispatchHand s rightThumb now).1, none) ∧
      (dispatchHand (dispatchHand s rightThumb now).1 rightThumb (now + 1/4)).2
          = some Action.VolumeUp) := by
  have sup : ∀ (a : Action),
      dispatchHand s (triggerOf a) now = (s, none)
        ↔ now - lastFiredOf s a ≤ cooldownOf a := by
    intro a
    cases a <;>
      · simp only [triggerOf, lastFiredOf, cooldownOf, dispatchHand,
          rightThumb, rightPinky, rightVictory, leftPalm]
        split_ifs <;>
          simp_all [Prod.ext_iff, not_le, not_lt, lt_sub_iff_add_lt,
            sub_le_iff_le_add]
  have fir : ∀ (a : Action),
      (dispatchHand s (triggerOf a) now).2 = some a
        ↔ now - lastFiredOf s a > cooldownOf a := by
    intro a
    cases a <;>
      · simp only [triggerOf, lastFiredOf, cooldownOf, dispatchHand,
          rightThumb, rightPinky, rightVictory, leftPalm]
        split_ifs <;> simp_all [not_lt, lt_sub_iff_add_lt, sub_le_iff_le_add]
  refine ⟨sup Action.VolumeUp, sup Action.VolumeDown, sup Action.Screenshot,
    sup Action.SpacePress, fir Action.VolumeUp, fir Action.VolumeDown,
    fir Action.Screenshot, fir Action.SpacePress, fun hf => ?_⟩
  rcases lt_or_le volume_cooldown_right (now - s.last_volume_change_time_right)
    with hc | hc
  · have h1 : (dispatchHand s rightThumb now).1
        = { s with current_volume := min (s.current_volume + 1/100) 1,
                   last_volume_change_time_right := now } := by
      simp [dispatchHand, rightThumb, hc]
    rw [h1]
    constructor
    · norm_num [dispatchHand, rightThumb, volume_cooldown_right]
    · norm_num [dispatchHand, rightThumb, volume_cooldown_right]
  · have hn : (dispatchHand s rightThumb now).2 = none := by
      simp [dispatchHand, rightThumb, not_lt.mpr hc]
    rw [hn] at hf
    exact absurd hf (by simp)

/-- Witness for C2 at the initial state and `now = 100`. -/
theorem cooldown_gating_witness :
    (dispatchHand ⟨1/2, 0, 0, 0⟩ (triggerOf Action.VolumeUp) 100
        = (⟨1/2, 0, 0, 0⟩, none)
      ↔ (100 : ℚ) - lastFiredOf ⟨1/2, 0, 0, 0⟩ Action.VolumeUp
          ≤ cooldownOf Action.VolumeUp) ∧
    (dispatchHand ⟨1/2, 0, 0, 0⟩ (triggerOf Action.VolumeDown) 100
        = (⟨1/2, 0, 0, 0⟩, none)
      ↔ (100 : ℚ) - lastFiredOf ⟨1/2, 0, 0, 0⟩ Action.VolumeDown
          ≤ cooldownOf Action.VolumeDown) ∧
    (dispatchHand ⟨1/2, 0, 0, 0⟩ (triggerOf Action.Screenshot) 100
        = (⟨1/2, 0, 0, 0⟩, none)
      ↔ (100 : ℚ) - lastFiredOf ⟨1/2, 0, 0, 0⟩ Action.Screenshot
          ≤ cooldownOf Action.Screenshot) ∧
    (dispatchHand ⟨1/2, 0, 0, 0⟩ (triggerOf Action.SpacePress) 100
        = (⟨1/2, 0, 0, 0⟩, none)
      ↔ (100 : ℚ) - lastFiredOf ⟨1/2, 0, 0, 0⟩ Action.SpacePress
          ≤ cooldownOf Action.SpacePress) ∧
    ((dispatchHand ⟨1/2, 0, 0, 0⟩ (triggerOf Action.VolumeUp) 100).2
        = some Action.VolumeUp
      ↔ (100 : ℚ) - lastFiredOf ⟨1/2, 0, 0, 0⟩ Action.VolumeUp
          > cooldownOf Action.VolumeUp) ∧
    ((dispatchHand ⟨1/2, 0, 0, 0⟩ (triggerOf Action.VolumeDown) 100).2
        = some Action.VolumeDown
      ↔ (100 : ℚ) - lastFiredOf ⟨1/2, 0, 0, 0⟩ Action.VolumeDown
          > cooldownOf Action.VolumeDown) ∧
    ((dispatchHand ⟨1/2, 0, 0, 0⟩ (triggerOf Action.Screenshot) 100).2
        = some Action.Screenshot
      ↔ (100 : ℚ) - lastFiredOf ⟨1/2, 0, 0, 0⟩ Action.Screenshot
          > cooldownOf Action.Screenshot) ∧
    ((dispatchHand ⟨1/2, 0, 0, 0⟩ (triggerOf Action.SpacePress) 100).2
        = some Action.SpacePress
      ↔ (100 : ℚ) - lastFiredOf ⟨1/2, 0, 0, 0⟩ Action.SpacePress
          > cooldownOf Action.SpacePress) ∧
    ((dispatchHand ⟨1/2, 0, 0, 0⟩ rightThumb 100).2 = some Action.VolumeUp →
      dispatchHand (dispatchHand ⟨1/2, 0, 0, 0⟩ rightThumb 100).1 rightThumb
          (100 + 1/10)
        = ((dispatchHand ⟨1/2, 0, 0, 0⟩ rightThumb 100).1, none) ∧
      (dispatchHand (dispatchHand ⟨1/2, 0, 0, 0⟩ rightThumb 100).1 rightThumb
          (100 + 1/4)).2 = some Action.VolumeUp) :=
  cooldown_gating ⟨1/2, 0, 0, 0⟩ 100

/-! ## Claim C4: the cached volume stays clamped to [0, 1] -/

/-- One VolumeUp step, attempted 1 second after the timer, fires and sets
the volume to `min (v + 0.01) 1`. -/
theorem volUp_step (s : GestureState) :
    (dispatchHand s rightThumb (s.last_volume_change_time_right + 1)).1
      = { s with current_volume := min (s.current_volume + 1/100) 1,
                 last_volume_change_time_right :=
                   s.last_volume_change_time_right + 1 } := by
  have hc : volume_cooldown_right < (1 : ℚ) := by norm_num [volume_cooldown_right]
  simp [dispatchHand, rightThumb, hc]

/-- One VolumeDown step, attempted 1 second after the timer, fires and
sets the volume to `max (v - 0.01) 0`. -/
theorem volDown_step (s : GestureState) :
    (dispatchHand s rightPinky (s.last_volume_change_time_right + 1)).1
      = { s with current_volume := max (s.current_volume - 1/100) 0,
                 last_volume_change_time_right :=
                   s.last_volume_change_time_right + 1 } := by
  have hc : volume_cooldown_right < (1 : ℚ) := by norm_num [volume_cooldown_right]
  simp [dispatchHand, rightPinky, hc]

/-- Any number of VolumeUp fires keeps the volume at most 1. -/
theorem fireVolUpN_le_one (n : ℕ) (s : GestureState)
    (h : s.current_volume ≤ 1) : (fireVolUpN n s).current_volume ≤ 1 := by
  induction n generalizing s with
  | zero => exact h
  | succ n ih =>
    rw [fireVolUpN]
    exact ih _ (by rw [volUp_step]; exact min_le_right _ _)

/-- Any number of VolumeDown fires keeps the volume at least 0. -/
theorem fireVolDownN_nonneg (n : ℕ) (s : GestureState)
    (h : 0 ≤ s.current_volume) : 0 ≤ (fireVolDownN n s).current_volume := by
  induction n generalizing s with
  | zero => exact h
  | succ n ih =>
    rw [fireVolDownN]
    exact ih _ (by rw [volDown_step]; exact le_max_right _ _)

/-- Claim C4 (confirmed): starting from any volume in `[0, 1]`, a VolumeUp
fire sets the cached volume to `min (v + 0.01) 1` and a VolumeDown fire to
`max (v - 0.01) 0`; the volume after either dispatch stays in `[0, 1]`;
and repeated VolumeUp fires from 0.995 never exceed 1, repeated VolumeDown
fires from 0.005 never drop below 0. -/
theorem volume_clamped (s : GestureState) (t : ℚ) (n : ℕ)
    (h0 : 0 ≤ s.current_volume) (h1 : s.current_volume ≤ 1) :
    ((dispatchHand s rightThumb t).2 = some Action.VolumeUp →
      (dispatchHand s rightThumb t).1.current_volume
        = min (s.current_volume + 1/100) 1) ∧
    ((dispatchHand s rightPinky t).2 = some Action.VolumeDown →
      (dispatchHand s rightPinky t).1.current_volume
        = max (s.current_volume - 1/100) 0) ∧
    (0 ≤ (dispatchHand s rightThumb t).1.current_volume ∧
      (dispatchHand s rightThumb t).1.current_volume ≤ 1) ∧
    (0 ≤ (dispatchHand s rightPinky t).1.current_volume ∧
      (dispatchHand s rightPinky t).1.current_volume ≤ 1) ∧
    (fireVolUpN n ⟨199/200, 0, 0, 0⟩).current_volume ≤ 1 ∧
    0 ≤ (fireVolDownN n ⟨1/200, 0, 0, 0⟩).current_volume := by
  have up1 : (dispatchHand s rightThumb t).2 = some Action.VolumeUp →
      (dispatchHand s rightThumb t).1.current_volume
        = min (s.current_volume + 1/100) 1 := by
    intro hf
    by_cases hc : t - s.last_volume_change_time_right > volume_cooldown_right
    · simp [dispatchHand, rightThumb, hc]
    · simp [dispatchHand, rightThumb, hc] at hf
  have down1 : (dispatchHand s rightPinky t).2 = some Action.VolumeDown →
      (dispatchHand s rightPinky t).1.current_volume
        = max (s.current_volume - 1/100) 0 := by
    intro hf
    by_cases hc : t - s.last_volume_change_time_right > volume_cooldown_right
    · simp [dispatchHand, rightPinky, hc]
    · simp [dispatchHand, rightPinky, hc] at hf
  have upb : 0 ≤ (dispatchHand s rightThumb t).1.current_volume ∧
      (dispatchHand s rightThumb t).1.current_volume ≤ 1 := by
    by_cases hc : t - s.last_volume_change_time_right > volume_cooldown_right
    · simp only [dispatchHand, rightThumb, if_pos hc]
      norm_num
      linarith
    · simp only [dispatchHand, rightThumb, if_neg hc]
      norm_num
      exact ⟨h0, h1⟩
  have downb : 0 ≤ (dispatchHand s rightPinky t).1.current_volume ∧
      (dispatchHand s rightPinky t).1.current_volume ≤ 1 := by
    by_cases hc : t - s.last_volume_change_time_right > volume_cooldown_right
    · simp only [dispatchHand, rightPinky, if_pos hc]
      norm_num
      linarith
    · simp only [dispatchHand, rightPinky, if_neg hc]
      norm_num
      exact ⟨h0, h1⟩
  exact ⟨up1, down1, upb, downb,
    fireVolUpN_le_one n _ (by norm_num),
    fireVolDownN_nonneg n _ (by norm_num)⟩

/-- Witness for C4 at volume 1/2, `t = 100`, three iterated fires. -/
theorem volume_clamped_witness :
    (0 : ℚ) ≤ 1/2 ∧ (1/2 : ℚ) ≤ 1 ∧
    (((dispatchHand ⟨1/2, 0, 0, 0⟩ rightThumb 100).2 = some Action.VolumeUp →
        (dispatchHand ⟨1/2, 0, 0, 0⟩ rightThumb 100).1.current_volume
          = min (1/2 + 1/100) 1) ∧
     ((dispatchHand ⟨1/2, 0, 0, 0⟩ rightPinky 100).2 = some Action.VolumeDown →
        (dispatchHand ⟨1/2, 0, 0, 0⟩ rightPinky 100).1.current_volume
          = max (1/2 - 1/100) 0) ∧
     (0 ≤ (dispatchHand ⟨1/2, 0, 0, 0⟩ rightThumb 100).1.current_volume ∧
       (dispatchHand ⟨1/2, 0, 0, 0⟩ rightThumb 100).1.current_volume ≤ 1) ∧
     (0 ≤ (dispatchHand ⟨1/2, 0, 0, 0⟩ rightPinky 100).1.current_volume ∧
       (dispatchHand ⟨1/2, 0, 0, 0⟩ rightPinky 100).1.current_volume ≤ 1) ∧
     (fireVolUpN 3 ⟨199/200, 0, 0, 0⟩).current_volume ≤ 1 ∧
     0 ≤ (fireVolDownN 3 ⟨1/200, 0, 0, 0⟩).current_volume) :=
  ⟨by norm_num, by norm_num,
   volume_clamped ⟨1/2, 0, 0, 0⟩ 100 3 (by norm_num) (by norm_num)⟩

/-! ## Claim C5: sink failures are NOT caught — the frame loop aborts

The claim says an Action Sink failure is caught and logged at the
dispatch site and the session continues to the next frame.  The code has
no try/except anywhere in `generate_frames` or `take_screenshot`: an
exception raised by `SetMasterVolumeLevelScalar` (line 102),
`cv2.imwrite` (line 158) or `pyautogui.press` (line 136) propagates out
of the generator, so the frame is not yielded, later frames are never
read, and `cap.release()` on line 149 is skipped. -/

/-- Evidence for the C5 code bug: with a failing volume sink, a VolumeUp
fire on frame 1 aborts the session — the trace is just `aborted VolumeUp`
(the volume cache already updated, the timer not): no `yielded` for frame
1, frame 2 never processed, no `released`.  With healthy sinks the same
two frames both fire and are both yielded. -/
theorem sink_failure_aborts_loop :
    generate_frames_loop (fun a => decide (a = Action.VolumeUp)) ⟨1/2, 0, 0, 0⟩
        [FrameInput.readOk [(rightThumb, 100)], FrameInput.readOk [(rightThumb, 101)]]
      = (⟨51/100, 0, 0, 0⟩, [Event.aborted Action.VolumeUp]) ∧
    generate_frames_loop noFail ⟨1/2, 0, 0, 0⟩
        [FrameInput.readOk [(rightThumb, 100)], FrameInput.readOk [(rightThumb, 101)]]
      = (⟨13/25, 0, 0, 101⟩,
         [Event.fired Action.VolumeUp, Event.yielded,
          Event.fired Action.VolumeUp, Event.yielded]) := by
  constructor <;>
    norm_num [generate_frames_loop, dispatchHandsE, dispatchHandE, rightThumb,
      volume_cooldown_right, noFail]

/-! ## Claim C6: camera read failure releases the camera exactly once -/

/-- With healthy sinks the fallible dispatch agrees with the pure one. -/
theorem dispatchHandE_noFail (s : GestureState) (h : Hand) (t : ℚ) :
    dispatchHandE noFail s h t = Except.ok (dispatchHand s h t) := by
  simp only [dispatchHandE, dispatchHand, noFail]
  split_ifs <;> simp_all

/-- With healthy sinks the per-frame dispatch loop never raises. -/
theorem dispatchHandsE_noFail (s : GestureState) (hs : List (Hand × ℚ)) :
    dispatchHandsE noFail s hs = Except.ok (dispatchHands s hs) := by
  induction hs generalizing s with
  | nil => rfl
  | cons p rest ih =>
    obtain ⟨h, t⟩ := p
    simp [dispatchHandsE, dispatchHands, dispatchHandE_noFail, ih]

/-- The loop processes a failure-free prefix and continues: its trace is
the prefix's trace followed by the rest's, from the carried-over state. -/
theorem generate_frames_loop_append (s : GestureState) (pre l : List FrameInput)
    (hpre : FrameInput.readFail ∉ pre) :
    generate_frames_loop noFail s (pre ++ l)
      = ((generate_frames_loop noFail (generate_frames_loop noFail s pre).1 l).1,
         (generate_frames_loop noFail s pre).2
           ++ (generate_frames_loop noFail
                (generate_frames_loop noFail s pre).1 l).2) := by
  induction pre generalizing s with
  | nil => simp [generate_frames_loop]
  | cons i pre ih =>
    match i with
    | FrameInput.readFail => simp at hpre
    | FrameInput.readOk hands =>
      have hpre' : FrameInput.readFail ∉ pre := fun hm =>
        hpre (List.mem_cons_of_mem _ hm)
      simp only [List.cons_append, generate_frames_loop, dispatchHandsE_noFail,
        List.append_eq]
      rw [ih _ hpre']
      simp [List.append_assoc]

/-- No `released` event is emitted while every read succeeds. -/
theorem released_not_mem (s : GestureState) (pre : List FrameInput)
    (hpre : FrameInput.readFail ∉ pre) :
    Event.released ∉ (generate_frames_loop noFail s pre).2 := by
  induction pre generalizing s with
  | nil => simp [generate_frames_loop]
  | cons i pre ih =>
    match i with
    | FrameInput.readFail => simp at hpre
    | FrameInput.readOk hands =>
      have hpre' : FrameInput.readFail ∉ pre := fun hm =>
        hpre (List.mem_cons_of_mem _ hm)
      simp only [generate_frames_loop, dispatchHandsE_noFail]
      intro hm
      simp only [List.mem_append, List.mem_map, List.mem_cons] at hm
      rcases hm with (⟨a, _, ha⟩ | h | hm)
      · exact Event.noConfusion ha
      · exact Event.noConfusion h
      · exact ih _ hpre' hm

/-- Claim C6 (confirmed): when a camera read fails on any iteration (after
any failure-free prefix), the frame loop terminates — the inputs after the
failed read are never processed, the trace ending at the `released` emitted
by `cap.release()` — and the camera is released exactly once. -/
theorem camera_read_failure_releases_once (s : GestureState)
    (pre rest : List FrameInput) (hpre : FrameInput.readFail ∉ pre) :
    generate_frames_loop noFail s (pre ++ FrameInput.readFail :: rest)
      = ((generate_frames_loop noFail s pre).1,
         (generate_frames_loop noFail s pre).2 ++ [Event.released]) ∧
    List.count Event.released
        (generate_frames_loop noFail s (pre ++ FrameInput.readFail :: rest)).2
      = 1 := by
  have hl := generate_frames_loop_append s pre (FrameInput.readFail :: rest) hpre
  have hfl : generate_frames_loop noFail (generate_frames_loop noFail s pre).1
      (FrameInput.readFail :: rest)
      = ((generate_frames_loop noFail s pre).1, [Event.released]) := rfl
  rw [hfl] at hl
  refine ⟨hl, ?_⟩
  rw [hl]
  simp only [List.count_append]
  rw [List.count_eq_zero.mpr (released_not_mem s pre hpre)]
  rfl

/-- Witness for C6: one good frame, then a failed read, then a further
(never processed) input. -/
theorem camera_read_failure_releases_once_witness :
    FrameInput.readFail ∉ [FrameInput.readOk [(rightThumb, 100)]] ∧
    (generate_frames_loop noFail ⟨1/2, 0, 0, 0⟩
        ([FrameInput.readOk [(rightThumb, 100)]]
          ++ FrameInput.readFail :: [FrameInput.readOk []])
      = ((generate_frames_loop noFail ⟨1/2, 0, 0, 0⟩
            [FrameInput.readOk [(rightThumb, 100)]]).1,
         (generate_frames_loop noFail ⟨1/2, 0, 0, 0⟩
            [FrameInput.readOk [(rightThumb, 100)]]).2 ++ [Event.released]) ∧
     List.count Event.released
        (generate_frames_loop noFail ⟨1/2, 0, 0, 0⟩
          ([FrameInput.readOk [(rightThumb, 100)]]
            ++ FrameInput.readFail :: [FrameInput.readOk []])).2 = 1) :=
  ⟨by simp,
   camera_read_failure_releases_once ⟨1/2, 0, 0, 0⟩
     [FrameInput.readOk [(rightThumb, 100)]] [FrameInput.readOk []] (by simp)⟩

/-! ## Claim C7: two hands in one frame fire independently -/

/-- Claim C7 (confirmed): when one frame carries a Right hand matching
VolumeUp and a Left hand matching SpacePress, each past its cooldown,
both actions fire in that same frame tick — there is no cross-hand
exclusion; the frame is then yielded. -/
theorem two_hands_fire_independently (s : GestureState) (t₁ t₂ : ℚ)
    (h1 : t₁ - s.last_volume_change_time_right > volume_cooldown_right)
    (h2 : t₂ - s.last_space_time_left > space_cooldown_left) :
    (generate_frames_loop noFail s
        [FrameInput.readOk [(rightThumb, t₁), (leftPalm, t₂)]]).2
      = [Event.fired Action.VolumeUp, Event.fired Action.SpacePress,
         Event.yielded] := by
  simp [generate_frames_loop, dispatchHandsE, dispatchHandE, rightThumb,
    leftPalm, noFail, h1, h2]

/-- Witness for C7 from the initial state at times 1 and 2. -/
theorem two_hands_fire_independently_witness :
    (1 : ℚ) - (0 : ℚ) > volume_cooldown_right ∧
    (2 : ℚ) - (0 : ℚ) > space_cooldown_left ∧
    (generate_frames_loop noFail ⟨1/2, 0, 0, 0⟩
        [FrameInput.readOk [(rightThumb, 1), (leftPalm, 2)]]).2
      = [Event.fired Action.VolumeUp, Event.fired Action.SpacePress,
         Event.yielded] :=
  ⟨by norm_num [volume_cooldown_right], by norm_num [space_cooldown_left],
   two_hands_fire_independently ⟨1/2, 0, 0, 0⟩ 1 2
     (by norm_num [volume_cooldown_right])
     (by norm_num [space_cooldown_left])⟩

/-! ## Claim C9: suppressed dispatches change no state at all -/

/-- Claim C9 (confirmed): a suppressed dispatch — pattern matched but the
cooldown not yet elapsed — changes no state at all (the exact pre-state is
returned with no action).  Hence any sequence of suppressed attempts after
a fire at `t` leaves the state fixed, and a continuously held gesture
fires again exactly at the first attempt `t'` with `t' - t` strictly
above the cooldown: suppressed attempts do not extend the window. -/
theorem suppressed_dispatch_stateless (s : GestureState) (t u t' : ℚ)
    (ts : List ℚ)
    (hfire : t - s.last_volume_change_time_right > volume_cooldown_right)
    (hu : u - t ≤ volume_cooldown_right)
    (hheld : ∀ x ∈ ts, x - t ≤ volume_cooldown_right)
    (hafter : t' - t > volume_cooldown_right) :
    dispatchHand (dispatchHand s rightThumb t).1 rightThumb u
        = ((dispatchHand s rightThumb t).1, none) ∧
    List.foldl (fun st x => (dispatchHand st rightThumb x).1)
        (dispatchHand s rightThumb t).1 ts = (dispatchHand s rightThumb t).1 ∧
    (dispatchHand (List.foldl (fun st x => (dispatchHand st rightThumb x).1)
        (dispatchHand s rightThumb t).1 ts) rightThumb t').2
      = some Action.VolumeUp := by
  have h1 : (dispatchHand s rightThumb t).1
      = { s with current_volume := min (s.current_volume + 1/100) 1,
                 last_volume_change_time_right := t } := by
    simp [dispatchHand, rightThumb, hfire]
  have hsup : ∀ x : ℚ, x - t ≤ volume_cooldown_right →
      dispatchHand (dispatchHand s rightThumb t).1 rightThumb x
        = ((dispatchHand s rightThumb t).1, none) := by
    intro x hx
    have hn : ¬(x - t > volume_cooldown_right) := not_lt.mpr hx
    rw [h1]
    simp [dispatchHand, rightThumb, hn]
  have hfold : ∀ l : List ℚ, (∀ x ∈ l, x - t ≤ volume_cooldown_right) →
      List.foldl (fun st x => (dispatchHand st rightThumb x).1)
        (dispatchHand s rightThumb t).1 l = (dispatchHand s rightThumb t).1 := by
    intro l
    induction l with
    | nil => intro _; rfl
    | cons x l ih =>
      intro hl
      have hstep : (dispatchHand (dispatchHand s rightThumb t).1 rightThumb x).1
          = (dispatchHand s rightThumb t).1 := by
        rw [hsup x (hl x (List.mem_cons_self x l))]
      simp only [List.foldl_cons, hstep]
      exact ih fun y hy => hl y (List.mem_cons_of_mem _ hy)
  refine ⟨hsup u hu, hfold ts hheld, ?_⟩
  rw [hfold ts hheld, h1]
  simp [dispatchHand, rightThumb, hafter]

/-- Witness for C9: fire at `t = 1`, hold through suppressed attempts at
1.1 and 1.2, fire again at 1.5. -/
theorem suppressed_dispatch_stateless_witness :
    (1 : ℚ) - (0 : ℚ) > volume_cooldown_right ∧
    (11/10 : ℚ) - 1 ≤ volume_cooldown_right ∧
    (3/2 : ℚ) - 1 > volume_cooldown_right ∧
    (dispatchHand (dispatchHand ⟨1/2, 0, 0, 0⟩ rightThumb 1).1 rightThumb (11/10)
        = ((dispatchHand ⟨1/2, 0, 0, 0⟩ rightThumb 1).1, none) ∧
     List.foldl (fun st x => (dispatchHand st rightThumb x).1)
        (dispatchHand ⟨1/2, 0, 0, 0⟩ rightThumb 1).1 [11/10, 6/5]
        = (dispatchHand ⟨1/2, 0, 0, 0⟩ rightThumb 1).1 ∧
     (dispatchHand (List.foldl (fun st x => (dispatchHand st rightThumb x).1)
        (dispatchHand ⟨1/2, 0, 0, 0⟩ rightThumb 1).1 [11/10, 6/5]) rightThumb
        (3/2)).2 = some Action.VolumeUp) :=
  ⟨by norm_num [volume_cooldown_right], by norm_num [volume_cooldown_right],
   by norm_num [volume_cooldown_right],
   suppressed_dispatch_stateless ⟨1/2, 0, 0, 0⟩ 1 (11/10) (3/2) [11/10, 6/5]
     (by norm_num [volume_cooldown_right])
     (by norm_num [volume_cooldown_right])
     (by norm_num [List.forall_mem_cons, volume_cooldown_right])
     (by norm_num [volume_cooldown_right])⟩

end HandGesture
